import Mathlib

/-!
Shallow embedding of the layout and markup generation engine of
`src/app.py` (greeting-card print layout generator), together with proofs
of the specification claims about it.

Conventions of the embedding:
* the Python `settings` dict is a structure whose fields are `Option`
  values; `settings.get(key, default)` becomes a `get*` function applying
  `Option.getD`;
* Python truthiness of an optional string (`None` and `""` are falsy) is
  the `truthy` predicate;
* all physical lengths are exact and carried in thousandths of an inch
  (`Nat`); every length arising in the program is a multiple of 0.125in,
  hence an exact binary float in Python, and `pyFloatStr` reproduces the
  decimal text Python interpolates for it;
* the generated HTML documents are built as explicit string
  concatenations that mirror the Python f-string templates character for
  character.
-/

namespace Imposition

/-- The settings dictionary consumed by the generators (`src/app.py`).
Each field is `Option` so that an absent dictionary key is representable;
the `get*` functions below translate `settings.get(key, default)`.
Only the keys read by `get_prince_pdf_css`, `generate_flat_card_html`,
`generate_folded_card_html` and `generate_html_for_image` appear. -/
structure Settings where
  card_type : Option String
  pdf_profile : Option String
  icc_base64 : Option String
  add_bleed : Option Bool
  use_true_black : Option Bool
  use_cmyk_colors : Option Bool
  image_fit : Option String
  background_color : Option String

/-- `settings.get('card_type', 'flat')` (src/app.py line 608). -/
def getCardType (s : Settings) : String := s.card_type.getD "flat"

/-- `settings.get('pdf_profile', 'PDF/X-4')` (src/app.py line 142). -/
def getPdfProfile (s : Settings) : String := s.pdf_profile.getD "PDF/X-4"

/-- `settings.get('use_true_black', True)` (src/app.py line 148). -/
def getUseTrueBlack (s : Settings) : Bool := s.use_true_black.getD true

/-- `settings.get('use_cmyk_colors', False)` (src/app.py line 150). -/
def getUseCmykColors (s : Settings) : Bool := s.use_cmyk_colors.getD false

/-- `settings.get('add_bleed', False)` (src/app.py lines 323 and 432). -/
def getAddBleed (s : Settings) : Bool := s.add_bleed.getD false

/-- `settings.get('image_fit', 'cover')` (src/app.py lines 330 and 443). -/
def getImageFit (s : Settings) : String := s.image_fit.getD "cover"

/-- `settings.get('background_color', '#ffffff')` (src/app.py lines 331 and 444). -/
def getBackgroundColor (s : Settings) : String := s.background_color.getD "#ffffff"

/-- Python truthiness of an optional string: `None` and `""` are falsy. -/
def truthy : Option String → Bool
  | none => false
  | some v => !v.isEmpty

/-- Decimal text of a Python float that is an exact multiple of 0.001,
given in thousandths.  Every length in the generators is a multiple of
0.125in, so it is an exact binary float whose `repr` (used by f-string
interpolation) is the shortest decimal: the integer part, a point, and
the fraction digits with trailing zeros removed but at least one digit
kept (7.0 ↦ "7.0", 9.5 ↦ "9.5", 0.125 ↦ "0.125"). -/
def pyFloatStr (m : Nat) : String :=
  let ip := m / 1000
  let fp := m % 1000
  let d1 := fp / 100
  let d2 := fp / 10 % 10
  let d3 := fp % 10
  let frac :=
    if d3 ≠ 0 then toString d1 ++ toString d2 ++ toString d3
    else if d2 ≠ 0 then toString d1 ++ toString d2
    else toString d1
  toString ip ++ "." ++ frac

/-- `bleed = 0.125 if settings.get('add_bleed', False) else 0`
(src/app.py lines 323 and 432), in thousandths of an inch. -/
def bleedMilli (s : Settings) : Nat := if getAddBleed s then 125 else 0

/-- The text Python interpolates for `{bleed}`: the float `0.125` prints
as "0.125", while the `else` branch of line 323/432 is the integer
literal `0`, which prints as "0" (not "0.0"). -/
def bleedStr (s : Settings) : String := if getAddBleed s then pyFloatStr 125 else "0"

/-- `marks = 'crop' if bleed > 0 else 'none'` (src/app.py lines 334 and 447). -/
def marksStr (s : Settings) : String := if 0 < bleedMilli s then "crop" else "none"

/-- `card_width = 4.75` (src/app.py line 321), thousandths of an inch. -/
def cardWidthMilli : Nat := 4750

/-- `card_height = 6.75` (src/app.py line 322). -/
def cardHeightMilli : Nat := 6750

/-- `total_width = card_width + (bleed * 2)` (src/app.py line 326). -/
def totalWidthMilli (s : Settings) : Nat := cardWidthMilli + bleedMilli s * 2

/-- `total_height = card_height + (bleed * 2)` (src/app.py line 327). -/
def totalHeightMilli (s : Settings) : Nat := cardHeightMilli + bleedMilli s * 2

/-- `panel_width = 4.75` (src/app.py line 430). -/
def panelWidthMilli : Nat := 4750

/-- `panel_height = 6.75` (src/app.py line 431). -/
def panelHeightMilli : Nat := 6750

/-- `spread_width = panel_width * 2` (src/app.py line 435). -/
def spreadWidthMilli : Nat := panelWidthMilli * 2

/-- `spread_height = panel_height` (src/app.py line 436). -/
def spreadHeightMilli : Nat := panelHeightMilli

/-- `total_spread_width = spread_width + (bleed * 2)` (src/app.py line 439). -/
def totalSpreadWidthMilli (s : Settings) : Nat := spreadWidthMilli + bleedMilli s * 2

/-- `total_spread_height = spread_height + (bleed * 2)` (src/app.py line 440). -/
def totalSpreadHeightMilli (s : Settings) : Nat := spreadHeightMilli + bleedMilli s * 2

/-- Python `sep.join(items)`. -/
def joinSep (sep : String) : List String → String
  | [] => ""
  | [x] => x
  | x :: xs => x ++ sep ++ joinSep sep xs

/-- The `color_options` list of `get_prince_pdf_css`
(src/app.py lines 146-151): `use-true-black` is appended first when its
setting (default `True`) holds, then `use-cmyk-colors` when its setting
(default `False`) holds. -/
def colorOptions (s : Settings) : List String :=
  (if getUseTrueBlack s then ["use-true-black"] else []) ++
  (if getUseCmykColors s then ["use-cmyk-colors"] else [])

/-- The `prince_pdf_css` list of lines accumulated by `get_prince_pdf_css`
(src/app.py lines 139-160): the profile declaration when the profile
string is non-empty, the color-options line when the keyword list is
non-empty, and the output-intent data URI when `icc_base64` is truthy. -/
def princePdfLines (s : Settings) : List String :=
  (if !(getPdfProfile s).isEmpty then
     ["prince-pdf-profile: \"" ++ getPdfProfile s ++ "\";"] else []) ++
  (if colorOptions s ≠ [] then
     ["prince-pdf-color-options: " ++ joinSep " " (colorOptions s) ++ ";"] else []) ++
  (match s.icc_base64 with
   | some b =>
     if !b.isEmpty then
       ["prince-pdf-output-intent: url(\"data:application/vnd.iccprofile;base64," ++
         b ++ "\");"]
     else []
   | none => [])

/-- `get_prince_pdf_css(settings)` (src/app.py lines 137-168): the
`@prince-pdf` block when any line was produced, else the empty string. -/
def get_prince_pdf_css (s : Settings) : String :=
  let lines := princePdfLines s
  if lines ≠ [] then
    "\n        @prince-pdf \x7b\n            " ++
      joinSep "\n" (lines.map (fun css => "            " ++ css)) ++
      "\n        \x7d\n        "
  else ""

/-- The base64 alphabet used by Python `base64.b64encode`. -/
def b64Chars : List Char :=
  "ABCDEFGHIJKLMNOPQRSTUVWXYZabcdefghijklmnopqrstuvwxyz0123456789+/".data

/-- Character of the base64 alphabet at an index. -/
def b64Char (n : Nat) : Char := b64Chars.getD n '='

/-- `base64.b64encode` on a list of bytes (each < 256), as the route
handlers use it to turn uploaded image or ICC bytes into the strings fed
to the generators (src/app.py lines 62 and 753). -/
def b64encode : List Nat → String
  | [] => ""
  | [a] => String.mk [b64Char (a / 4), b64Char (a % 4 * 16), '=', '=']
  | [a, b] =>
      String.mk [b64Char (a / 4), b64Char (a % 4 * 16 + b / 16),
        b64Char (b % 16 * 4), '=']
  | a :: b :: c :: rest =>
      String.mk [b64Char (a / 4), b64Char (a % 4 * 16 + b / 16),
        b64Char (b % 16 * 4 + c / 64), b64Char (c % 64)] ++ b64encode rest

/-- `BACK_PANEL_CONTENT` (src/app.py lines 79-94). -/
@[irreducible] def BACK_PANEL_CONTENT : String :=
  "\n<div class=\"back-content\">\n    <div class=\"logo-placeholder\">✦</div>\n" ++
  "    <h2>Premium Greeting Card</h2>\n" ++
  "    <p class=\"tagline\">Crafted with care, delivered with love</p>\n" ++
  "    <div class=\"details\">\n        <p>Made in USA</p>\n" ++
  "        <p>Recycled Paper</p>\n        <p>www.example.com</p>\n    </div>\n" ++
  "    <div class=\"barcode-placeholder\">\n        <div class=\"barcode-lines\"></div>\n" ++
  "        <span>1234567890</span>\n    </div>\n</div>\n"

/-- `INSIDE_LEFT_CONTENT` (src/app.py lines 97-101). -/
@[irreducible] def INSIDE_LEFT_CONTENT : String :=
  "\n<div class=\"inside-content inside-left\">\n" ++
  "    <p class=\"small-text\">Panel 2 - Inside Left</p>\n</div>\n"

/-- `INSIDE_RIGHT_CONTENT` (src/app.py lines 103-114). -/
@[irreducible] def INSIDE_RIGHT_CONTENT : String :=
  "\n<div class=\"inside-content inside-right\">\n    <div class=\"message-area\">\n" ++
  "        <p class=\"preprinted-message\">Wishing you all the best on your special day!</p>\n" ++
  "        <div class=\"signature-line\">\n            <span>With love,</span>\n" ++
  "            <div class=\"line\"></div>\n        </div>\n    </div>\n" ++
  "    <p class=\"small-text\">Panel 3 - Inside Right</p>\n</div>\n"

/-- `PANEL_4_CONTENT` (src/app.py lines 116-131). -/
@[irreducible] def PANEL_4_CONTENT : String :=
  "\n<div class=\"back-content panel-4\">\n    <div class=\"logo-placeholder\">✦</div>\n" ++
  "    <h2>Premium Greeting Card</h2>\n" ++
  "    <p class=\"tagline\">Crafted with care</p>\n" ++
  "    <div class=\"details\">\n        <p>Made in USA • Recycled Paper</p>\n" ++
  "        <p>www.example.com</p>\n    </div>\n" ++
  "    <div class=\"barcode-placeholder\">\n        <div class=\"barcode-lines\"></div>\n" ++
  "        <span>1234567890</span>\n    </div>\n" ++
  "    <p class=\"small-text\">Panel 4 - Back Cover</p>\n</div>\n"

/-- `get_common_styles()` (src/app.py lines 171-314): a constant CSS
string shared by both templates. -/
@[irreducible] def COMMON_STYLES : String :=
  "\n        * \x7b\n            margin: 0;\n            padding: 0;\n" ++
  "            box-sizing: border-box;\n        \x7d\n        \n" ++
  "        .panel-content \x7b\n            width: 100%;\n            height: 100%;\n" ++
  "            display: flex;\n            align-items: center;\n" ++
  "            justify-content: center;\n            overflow: hidden;\n" ++
  "            position: relative;\n        \x7d\n        \n" ++
  "        .image \x7b\n            width: 100%;\n            height: 100%;\n" ++
  "            object-fit: cover;\n            object-position: center;\n        \x7d\n        \n" ++
  "        /* Back panel styles */\n        .back-content \x7b\n" ++
  "            width: 100%;\n            height: 100%;\n            display: flex;\n" ++
  "            flex-direction: column;\n            align-items: center;\n" ++
  "            justify-content: center;\n            text-align: center;\n" ++
  "            padding: 0.5in;\n            font-family: \x27Georgia\x27, serif;\n" ++
  "            color: #333;\n        \x7d\n        \n" ++
  "        .back-content .logo-placeholder \x7b\n            font-size: 48pt;\n" ++
  "            color: #c4a052;\n            margin-bottom: 0.2in;\n        \x7d\n        \n" ++
  "        .back-content h2 \x7b\n            font-size: 14pt;\n" ++
  "            font-weight: normal;\n            letter-spacing: 2pt;\n" ++
  "            text-transform: uppercase;\n            margin-bottom: 0.1in;\n        \x7d\n        \n" ++
  "        .back-content .tagline \x7b\n            font-size: 10pt;\n" ++
  "            font-style: italic;\n            color: #666;\n" ++
  "            margin-bottom: 0.3in;\n        \x7d\n        \n" ++
  "        .back-content .details \x7b\n            font-size: 8pt;\n" ++
  "            color: #888;\n            line-height: 1.6;\n" ++
  "            margin-bottom: 0.3in;\n        \x7d\n        \n" ++
  "        .back-content .barcode-placeholder \x7b\n            display: flex;\n" ++
  "            flex-direction: column;\n            align-items: center;\n        \x7d\n        \n" ++
  "        .back-content .barcode-lines \x7b\n            width: 1.2in;\n" ++
  "            height: 0.4in;\n            background: repeating-linear-gradient(\n" ++
  "                90deg,\n                #000 0px,\n                #000 2px,\n" ++
  "                #fff 2px,\n                #fff 4px,\n                #000 4px,\n" ++
  "                #000 5px,\n                #fff 5px,\n                #fff 8px\n" ++
  "            );\n            margin-bottom: 0.05in;\n        \x7d\n        \n" ++
  "        .back-content .barcode-placeholder span \x7b\n" ++
  "            font-family: \x27Courier New\x27, monospace;\n" ++
  "            font-size: 8pt;\n        \x7d\n        \n" ++
  "        /* Inside panel styles */\n        .inside-content \x7b\n" ++
  "            width: 100%;\n            height: 100%;\n            display: flex;\n" ++
  "            flex-direction: column;\n            align-items: center;\n" ++
  "            justify-content: center;\n            text-align: center;\n" ++
  "            padding: 0.5in;\n            font-family: \x27Georgia\x27, serif;\n" ++
  "            color: #333;\n        \x7d\n        \n" ++
  "        .inside-content .message-area \x7b\n            max-width: 80%;\n        \x7d\n        \n" ++
  "        .inside-content .preprinted-message \x7b\n            font-size: 14pt;\n" ++
  "            font-style: italic;\n            line-height: 1.8;\n" ++
  "            margin-bottom: 0.5in;\n        \x7d\n        \n" ++
  "        .inside-content .signature-line \x7b\n            text-align: left;\n        \x7d\n        \n" ++
  "        .inside-content .signature-line span \x7b\n            font-size: 12pt;\n" ++
  "            display: block;\n            margin-bottom: 0.1in;\n        \x7d\n        \n" ++
  "        .inside-content .signature-line .line \x7b\n            width: 2in;\n" ++
  "            border-bottom: 1px solid #ccc;\n            height: 0.3in;\n        \x7d\n        \n" ++
  "        .small-text \x7b\n            position: absolute;\n            bottom: 0.15in;\n" ++
  "            font-size: 6pt;\n            color: #ccc;\n        \x7d\n    "

/-- Back panel of the flat card (src/app.py lines 337-340): the supplied
back image when both its data and type are truthy, else the fallback. -/
def flatBackContent (back_image_data back_image_type : Option String) : String :=
  if truthy back_image_data && truthy back_image_type then
    "<img class=\"image\" src=\"data:image/" ++ back_image_type.getD "" ++
      ";base64," ++ back_image_data.getD "" ++ "\" alt=\"Card Back\">"
  else BACK_PANEL_CONTENT

/-- Back panel (panel 4) of the folded card (src/app.py lines 450-453). -/
def foldedBackPanelContent (back_image_data back_image_type : Option String) : String :=
  if truthy back_image_data && truthy back_image_type then
    "<img class=\"image\" src=\"data:image/" ++ back_image_type.getD "" ++
      ";base64," ++ back_image_data.getD "" ++ "\" alt=\"Back Cover\">"
  else PANEL_4_CONTENT

/-- Inside-left panel of the folded card (src/app.py lines 456-463). -/
def insideLeftContent (inside_image_data inside_image_type : Option String) : String :=
  if truthy inside_image_data && truthy inside_image_type then
    "<img class=\"image\" src=\"data:image/" ++ inside_image_type.getD "" ++
      ";base64," ++ inside_image_data.getD "" ++
      "\" alt=\"Inside Left\" style=\"object-position: right center;\">"
  else INSIDE_LEFT_CONTENT

/-- Inside-right panel of the folded card (src/app.py lines 456-464). -/
def insideRightContent (inside_image_data inside_image_type : Option String) : String :=
  if truthy inside_image_data && truthy inside_image_type then
    "<img class=\"image\" src=\"data:image/" ++ inside_image_type.getD "" ++
      ";base64," ++ inside_image_data.getD "" ++
      "\" alt=\"Inside Right\" style=\"object-position: left center;\">"
  else INSIDE_RIGHT_CONTENT

/-- Fold-guide indicator of the inside spread (src/app.py lines 456-466):
empty when a real inside image is used, else the dashed-line div. -/
def insideFoldIndicator (inside_image_data inside_image_type : Option String) : String :=
  if truthy inside_image_data && truthy inside_image_type then ""
  else "<div class=\"fold-indicator\"></div>"

/-- Head of the flat-card template (src/app.py lines 342-406): everything
from `<!DOCTYPE html>` up to and including the indentation that precedes
the first page comment inside `<body>`. -/
def flatHeadHtml (s : Settings) : String :=
  let card_width := pyFloatStr cardWidthMilli
  let card_height := pyFloatStr cardHeightMilli
  let bleed := bleedStr s
  let total_width := pyFloatStr (totalWidthMilli s)
  let total_height := pyFloatStr (totalHeightMilli s)
  let prince_pdf_block := get_prince_pdf_css s
  let fit_mode := getImageFit s
  let bg_color := getBackgroundColor s
  let marks := marksStr s
  "<!DOCTYPE html>\n<html>\n<head>\n    <meta charset=\"UTF-8\">\n    <style>\n        " ++
  prince_pdf_block ++
  "\n        \n        @page \x7b\n            " ++ "size: " ++ card_width ++ "in " ++
  card_height ++ "in;" ++ "\n            margin: 0;\n            bleed: " ++ bleed ++
  "in;\n            " ++ "marks: " ++ marks ++ ";" ++ "\n        \x7d\n        \n        " ++
  COMMON_STYLES ++
  "\n        \n        html, body \x7b\n            margin: 0;\n            padding: 0;\n        \x7d\n        \n        " ++
  ".page \x7b\n            position: relative;\n            width: " ++ card_width ++
  "in;\n            height: " ++ card_height ++
  "in;\n            page-break-after: always;\n            overflow: visible;\n        \x7d\n        \n        " ++
  ".page:last-child \x7b\n            page-break-after: avoid;\n        \x7d" ++
  "\n        \n        /* Content box extends into bleed area using negative positioning */\n        " ++
  ".page-content \x7b\n            position: absolute;\n            top: -" ++
  bleed ++ "in;\n            left: -" ++ bleed ++ "in;\n            width: " ++
  total_width ++ "in;\n            height: " ++ total_height ++
  "in;\n            background-color: " ++ bg_color ++ ";\n        \x7d\n        \n        " ++
  ".image \x7b\n            width: 100%;\n            height: 100%;\n            object-fit: " ++
  fit_mode ++
  ";\n            object-position: center;\n            display: block;\n        \x7d\n        \n        " ++
  ".back-page-content \x7b\n            position: absolute;\n            top: -" ++
  bleed ++ "in;\n            left: -" ++ bleed ++ "in;\n            width: " ++
  total_width ++ "in;\n            height: " ++ total_height ++
  "in;\n            background-color: " ++ bg_color ++
  ";\n            display: flex;\n            align-items: center;\n            justify-content: center;\n        \x7d\n    </style>\n</head>\n<body>\n    "

/-- Comment opening page 1 of the flat template (src/app.py line 407). -/
def flatPage1Comment : String := "<!-- Page 1: Front (uploaded image) -->"

/-- Markup between the page-1 comment and the front image type
(src/app.py lines 408-410). -/
def flatFrontOpen : String :=
  "\n    <div class=\"page\">\n        <div class=\"page-content\">\n            <img class=\"image\" src=\"data:image/"

/-- End of the front `img` tag of the flat template (src/app.py line 410). -/
def flatFrontClose : String := "\" alt=\"Card Front\">"

/-- Markup between the two pages of the flat template
(src/app.py lines 411-413). -/
def flatPageGap : String := "\n        </div>\n    </div>\n    \n    "

/-- Comment opening page 2 of the flat template (src/app.py line 414). -/
def flatPage2Comment : String := "<!-- Page 2: Back -->"

/-- Markup between the page-2 comment and the back content
(src/app.py lines 415-417). -/
def flatBackOpen : String :=
  "\n    <div class=\"page\">\n        <div class=\"back-page-content\">\n            "

/-- Closing markup of the flat template (src/app.py lines 418-421). -/
def flatDocClose : String := "\n        </div>\n    </div>\n</body>\n</html>"

/-- `generate_flat_card_html` (src/app.py lines 317-423): the two-page
flat-card document, as the exact f-string concatenation of the template. -/
def generate_flat_card_html (image_data image_type : String) (s : Settings)
    (back_image_data back_image_type : Option String) : String :=
  flatHeadHtml s ++ flatPage1Comment ++ flatFrontOpen ++ image_type ++
  ";base64," ++ image_data ++ flatFrontClose ++ flatPageGap ++
  flatPage2Comment ++ flatBackOpen ++
  flatBackContent back_image_data back_image_type ++ flatDocClose

/-- Head of the folded-card template (src/app.py lines 468-551):
everything from `<!DOCTYPE html>` up to and including the indentation
that precedes the first spread comment inside `<body>`. -/
def foldedHeadHtml (s : Settings) : String :=
  let spread_width := pyFloatStr spreadWidthMilli
  let spread_height := pyFloatStr spreadHeightMilli
  let bleed := bleedStr s
  let total_spread_width := pyFloatStr (totalSpreadWidthMilli s)
  let total_spread_height := pyFloatStr (totalSpreadHeightMilli s)
  let prince_pdf_block := get_prince_pdf_css s
  let fit_mode := getImageFit s
  let bg_color := getBackgroundColor s
  let marks := marksStr s
  "<!DOCTYPE html>\n<html>\n<head>\n    <meta charset=\"UTF-8\">\n    <style>\n        " ++
  prince_pdf_block ++
  "\n        \n        @page \x7b\n            " ++ "size: " ++ spread_width ++ "in " ++
  spread_height ++ "in;" ++ "\n            margin: 0;\n            bleed: " ++ bleed ++
  "in;\n            " ++ "marks: " ++ marks ++ ";" ++ "\n        \x7d\n        \n        " ++
  COMMON_STYLES ++
  "\n        \n        html, body \x7b\n            margin: 0;\n            padding: 0;\n        \x7d\n        \n        " ++
  ".spread \x7b\n            position: relative;\n            width: " ++ spread_width ++
  "in;\n            height: " ++ spread_height ++
  "in;\n            page-break-after: always;\n            overflow: visible;\n        \x7d\n        \n        " ++
  ".spread:last-child \x7b\n            page-break-after: avoid;\n        \x7d" ++
  "\n        \n        /* Content extends into bleed area */\n        " ++
  ".spread-content \x7b\n            position: absolute;\n            top: -" ++
  bleed ++ "in;\n            left: -" ++ bleed ++ "in;\n            width: " ++
  total_spread_width ++ "in;\n            height: " ++ total_spread_height ++
  "in;" ++ "\n            display: flex;\n            flex-direction: row;\n            background-color: " ++
  bg_color ++ ";\n        \x7d\n        \n        " ++
  "/* Each panel takes half the spread (plus outer bleed) */\n        .panel \x7b\n            width: 50%;\n            height: 100%;\n            position: relative;\n            overflow: hidden;\n        \x7d\n        \n        " ++
  ".panel-inner \x7b\n            width: 100%;\n            height: 100%;\n            display: flex;\n            align-items: center;\n            justify-content: center;\n            position: relative;\n            background-color: " ++
  bg_color ++ ";\n        \x7d\n        \n        " ++
  ".image \x7b\n            width: 100%;\n            height: 100%;\n            object-fit: " ++
  fit_mode ++
  ";\n            object-position: center;\n            display: block;\n        \x7d\n        \n        " ++
  "/* Fold line indicator (visual guide on trim, very subtle) */\n        .fold-indicator \x7b\n            position: absolute;\n            top: 0;\n            left: 50%;\n            width: 0;\n            height: 100%;\n            border-left: 0.5px dashed rgba(200, 200, 200, 0.5);\n            z-index: 10;\n        \x7d\n    </style>\n</head>\n<body>\n    "

/-- Comment opening spread 1 of the folded template (src/app.py line 552). -/
def foldedSpread1Comment : String :=
  "<!-- Spread 1: Outside (Panel 4 left | Panel 1 right) -->"

/-- Markup between the spread-1 comment and the back panel content: the
back panel occupies the left half of the spread (src/app.py lines 553-559). -/
def foldedSpread1Open : String :=
  "\n    <!-- When printed and folded, Panel 1 becomes front cover, Panel 4 becomes back -->\n    <div class=\"spread\">\n        <div class=\"spread-content\">\n            <!-- Panel 4: Back Cover (left side of spread) -->\n            <div class=\"panel\">\n                <div class=\"panel-inner\">\n                    "

/-- Markup between the back panel and the front image type: the front
image occupies the right half of the spread (src/app.py lines 560-565). -/
def foldedFrontOpen : String :=
  "\n                </div>\n            </div>\n            <!-- Panel 1: Front Cover (right side of spread) - uploaded image -->\n            <div class=\"panel\">\n                <div class=\"panel-inner\">\n                    "

/-- End of the front `img` tag of the folded template (src/app.py line 565). -/
def foldedFrontClose : String := "\" alt=\"Front Cover\">"

/-- Close of the spread-1 content box (src/app.py lines 566-568). -/
def foldedSpread1Close : String :=
  "\n                </div>\n            </div>\n        </div>\n        "

/-- The fold-indicator element, unconditionally placed at the end of
spread 1 (src/app.py line 569), and the same markup the conditional
inside-spread indicator uses (line 466). -/
def foldIndicatorDiv : String := "<div class=\"fold-indicator\"></div>"

/-- Markup between the two spreads (src/app.py lines 570-571). -/
def foldedSpreadGap : String := "\n    </div>\n    \n    "

/-- Comment opening spread 2 of the folded template (src/app.py line 572). -/
def foldedSpread2Comment : String :=
  "<!-- Spread 2: Inside (Panel 2 left | Panel 3 right) -->"

/-- Markup between the spread-2 comment and the inside-left content
(src/app.py lines 573-578). -/
def foldedSpread2Open : String :=
  "\n    <div class=\"spread\">\n        <div class=\"spread-content\">\n            <!-- Panel 2: Inside Left -->\n            <div class=\"panel\">\n                <div class=\"panel-inner\">\n                    "

/-- Markup between the inside-left and inside-right content
(src/app.py lines 579-584). -/
def foldedInsideMid : String :=
  "\n                </div>\n            </div>\n            <!-- Panel 3: Inside Right -->\n            <div class=\"panel\">\n                <div class=\"panel-inner\">\n                    "

/-- Close of the spread-2 content box, before the conditional inside
fold indicator (src/app.py lines 585-588). -/
def foldedSpread2Close : String :=
  "\n                </div>\n            </div>\n        </div>\n        "

/-- Closing markup of the folded template (src/app.py lines 589-591). -/
def foldedDocClose : String := "\n    </div>\n</body>\n</html>"

/-- `generate_folded_card_html` (src/app.py lines 426-593): the two-spread
folded-card document, as the exact f-string concatenation of the template:
spread 1 carries the back panel then the front image, with an
unconditional fold indicator; spread 2 carries inside-left then
inside-right, with the conditional fold indicator. -/
def generate_folded_card_html (image_data image_type : String) (s : Settings)
    (inside_image_data inside_image_type back_image_data back_image_type : Option String) :
    String :=
  foldedHeadHtml s ++ foldedSpread1Comment ++ foldedSpread1Open ++
  foldedBackPanelContent back_image_data back_image_type ++
  foldedFrontOpen ++ "<img class=\"image\" src=\"data:image/" ++ image_type ++
  ";base64," ++ image_data ++ foldedFrontClose ++ foldedSpread1Close ++
  foldIndicatorDiv ++ foldedSpreadGap ++ foldedSpread2Comment ++
  foldedSpread2Open ++ insideLeftContent inside_image_data inside_image_type ++
  foldedInsideMid ++ insideRightContent inside_image_data inside_image_type ++
  foldedSpread2Close ++ insideFoldIndicator inside_image_data inside_image_type ++
  foldedDocClose

/-- An entry of the `additional_images` dict: base64 data plus image type
(both set together, src/app.py lines 772 and 782). -/
structure ImageRef where
  data : String
  type : String

/-- The `additional_images` dict passed to `generate_html_for_image`. -/
structure AdditionalImages where
  back : Option ImageRef
  inside : Option ImageRef

/-- `generate_html_for_image` (src/app.py lines 596-629): dispatches on
`settings.get('card_type', 'flat')`; the `folded` branch receives inside
and back images, every other value takes the flat branch, which receives
only the back image. -/
def generate_html_for_image (image_data image_type : String) (s : Settings)
    (additional_images : Option AdditionalImages) : String :=
  let ai := additional_images.getD ⟨none, none⟩
  let back_data := ai.back.map ImageRef.data
  let back_type := ai.back.map ImageRef.type
  let inside_data := ai.inside.map ImageRef.data
  let inside_type := ai.inside.map ImageRef.type
  if getCardType s = "folded" then
    generate_folded_card_html image_data image_type s inside_data inside_type
      back_data back_type
  else
    generate_flat_card_html image_data image_type s back_data back_type

/-! ### Substring machinery -/

/-- `m` occurs as a contiguous substring of `h`. -/
def ContainsStr (h m : String) : Prop := ∃ a b : String, h = a ++ m ++ b

theorem containsStr_appL (p q m : String) (h : ContainsStr p m) :
    ContainsStr (p ++ q) m := by
  obtain ⟨a, b, rfl⟩ := h
  exact ⟨a, b ++ q, by simp [String.append_assoc]⟩

theorem containsStr_appR (p q m : String) (h : ContainsStr q m) :
    ContainsStr (p ++ q) m := by
  obtain ⟨a, b, rfl⟩ := h
  exact ⟨p ++ a, b, by simp [String.append_assoc]⟩

theorem containsStr_self (m : String) : ContainsStr m m :=
  ⟨"", "", by simp⟩

theorem containsStr_tail (p m : String) : ContainsStr (p ++ m) m :=
  containsStr_appR p m m (containsStr_self m)

theorem containsStr_trans (h m x : String) (h1 : ContainsStr h m)
    (h2 : ContainsStr m x) : ContainsStr h x := by
  obtain ⟨a, b, rfl⟩ := h1
  obtain ⟨c, d, rfl⟩ := h2
  exact ⟨a ++ c, d ++ b, by simp [String.append_assoc]⟩

theorem joinSep_decomp (sep x : String) :
    ∀ l : List String, x ∈ l → ∃ a b : String, joinSep sep l = a ++ x ++ b := by
  intro l
  induction l with
  | nil => intro h; cases h
  | cons y ys ih =>
    intro h
    cases ys with
    | nil =>
      have hx : x = y := List.mem_singleton.mp h
      subst hx
      exact ⟨"", "", by simp [joinSep]⟩
    | cons z zs =>
      rcases List.mem_cons.mp h with hxy | hmem
      · subst hxy
        exact ⟨"", sep ++ joinSep sep (z :: zs), by simp [joinSep, String.append_assoc]⟩
      · obtain ⟨a, b, hab⟩ := ih hmem
        exact ⟨y ++ sep ++ a, b, by simp [joinSep, hab, String.append_assoc]⟩

/-- Any line collected into `prince_pdf_css` appears verbatim in the
emitted `@prince-pdf` block. -/
theorem princeCss_line_decomp (s : Settings) (line : String)
    (h : line ∈ princePdfLines s) :
    ContainsStr (get_prince_pdf_css s) line := by
  have hne : princePdfLines s ≠ [] := by
    intro hnil
    rw [hnil] at h
    cases h
  obtain ⟨a, b, hab⟩ :=
    joinSep_decomp "\n" ("            " ++ line)
      ((princePdfLines s).map (fun css => "            " ++ css))
      (List.mem_map_of_mem _ h)
  refine ⟨"\n        @prince-pdf \x7b\n            " ++ a ++ "            ",
    b ++ "\n        \x7d\n        ", ?_⟩
  simp only [get_prince_pdf_css]
  rw [if_pos hne, hab]
  simp [String.append_assoc]

/-- When the keyword list is non-empty, the color-options line is one of
the collected `prince_pdf_css` lines. -/
theorem colorLine_mem (s : Settings) (h : colorOptions s ≠ []) :
    ("prince-pdf-color-options: " ++ joinSep " " (colorOptions s) ++ ";") ∈
      princePdfLines s := by
  unfold princePdfLines
  simp [h]

/-- The `marks: <value>;` declaration of the `@page` block, located in
its surrounding template text (identical in both templates). -/
theorem contains_marks_chunk (p m : String) :
    ContainsStr (((p ++ "marks: ") ++ m) ++ ";")
      ("marks: " ++ m ++ ";") :=
  ⟨p, "", by simp [String.append_assoc]⟩

/-- The `size: <w>in <h>in;` declaration of the `@page` block, located in
its surrounding template text (identical in both templates). -/
theorem contains_size_chunk (p sw sh : String) :
    ContainsStr ((((p ++ "size: ") ++ sw ++ "in ") ++ sh) ++ "in;")
      ("size: " ++ sw ++ "in " ++ sh ++ "in;") :=
  ⟨p, "", by simp [String.append_assoc]⟩

/-- The `.spread-content` rule of the folded template up to its height
declaration, located in its surrounding template text. -/
theorem contains_spread_content_chunk (p bl tw th : String) :
    ContainsStr ((((((p ++ ".spread-content \x7b\n            position: absolute;\n            top: -") ++
        bl ++ "in;\n            left: -") ++ bl ++ "in;\n            width: ") ++
        tw ++ "in;\n            height: ") ++ th) ++ "in;")
      (".spread-content \x7b\n            position: absolute;\n            top: -" ++ bl ++
        "in;\n            left: -" ++ bl ++ "in;\n            width: " ++ tw ++
        "in;\n            height: " ++ th ++ "in;") :=
  ⟨p, "", by simp [String.append_assoc]⟩

/-- The pair of `.page` break rules of the flat template: break after
every page, suppressed on the last. -/
theorem contains_page_break_chunk (p cw ch : String) :
    ContainsStr ((((((p ++ ".page \x7b\n            position: relative;\n            width: ") ++
        cw) ++ "in;\n            height: ") ++ ch) ++
        "in;\n            page-break-after: always;\n            overflow: visible;\n        \x7d\n        \n        ") ++
        ".page:last-child \x7b\n            page-break-after: avoid;\n        \x7d")
      (".page \x7b\n            position: relative;\n            width: " ++ cw ++
        "in;\n            height: " ++ ch ++
        "in;\n            page-break-after: always;\n            overflow: visible;\n        \x7d\n        \n        .page:last-child \x7b\n            page-break-after: avoid;\n        \x7d") :=
  ⟨p, "", by simp [String.append_assoc]⟩

/-- The pair of `.spread` break rules of the folded template: break after
every spread, suppressed on the last. -/
theorem contains_spread_break_chunk (p sw sh : String) :
    ContainsStr ((((((p ++ ".spread \x7b\n            position: relative;\n            width: ") ++
        sw) ++ "in;\n            height: ") ++ sh) ++
        "in;\n            page-break-after: always;\n            overflow: visible;\n        \x7d\n        \n        ") ++
        ".spread:last-child \x7b\n            page-break-after: avoid;\n        \x7d")
      (".spread \x7b\n            position: relative;\n            width: " ++ sw ++
        "in;\n            height: " ++ sh ++
        "in;\n            page-break-after: always;\n            overflow: visible;\n        \x7d\n        \n        .spread:last-child \x7b\n            page-break-after: avoid;\n        \x7d") :=
  ⟨p, "", by simp [String.append_assoc]⟩

/-! ### Claim theorems -/

/-- **C1**: in both the flat-card and folded-card generators, for every
settings value: `add_bleed` false gives bleed amount 0 and marks `none`;
`add_bleed` true gives bleed amount 0.125in (125 thousandths) and marks
`crop`; marks are `crop` exactly when the bleed amount is positive; and
each generated document emits `marks: <value>;` for that value. -/
theorem c1_bleed_and_marks (s : Settings) (fd ft : String)
    (i_d i_t b_d b_t : Option String) :
    (getAddBleed s = false → bleedMilli s = 0 ∧ marksStr s = "none") ∧
    (getAddBleed s = true → bleedMilli s = 125 ∧ marksStr s = "crop") ∧
    (marksStr s = "crop" ↔ 0 < bleedMilli s) ∧
    ContainsStr (generate_flat_card_html fd ft s b_d b_t)
      ("marks: " ++ marksStr s ++ ";") ∧
    ContainsStr (generate_folded_card_html fd ft s i_d i_t b_d b_t)
      ("marks: " ++ marksStr s ++ ";") := by
  refine ⟨?_, ?_, ?_, ?_, ?_⟩
  · intro h
    simp [bleedMilli, marksStr, h]
  · intro h
    simp [bleedMilli, marksStr, h]
  · by_cases h : getAddBleed s <;> simp [bleedMilli, marksStr, h]
  · simp only [generate_flat_card_html, flatHeadHtml]
    iterate 46 apply containsStr_appL
    exact contains_marks_chunk _ _
  · simp only [generate_folded_card_html, foldedHeadHtml]
    iterate 50 apply containsStr_appL
    exact contains_marks_chunk _ _

/-- Witness for C1 at concrete settings with `add_bleed` false and true. -/
theorem c1_bleed_and_marks_witness :
    (bleedMilli ⟨none, none, none, some false, none, none, none, none⟩ = 0 ∧
      marksStr ⟨none, none, none, some false, none, none, none, none⟩ = "none") ∧
    (bleedMilli ⟨none, none, none, some true, none, none, none, none⟩ = 125 ∧
      marksStr ⟨none, none, none, some true, none, none, none, none⟩ = "crop") :=
  ⟨(c1_bleed_and_marks ⟨none, none, none, some false, none, none, none, none⟩
      "D" "png" none none none none).1 (by decide),
   (c1_bleed_and_marks ⟨none, none, none, some true, none, none, none, none⟩
      "D" "png" none none none none).2.1 (by decide)⟩

/-- **C2** counterexample: the invalid `card_type` value `"banana"` is
not rejected — `generate_html_for_image` produces a document, namely
exactly the flat-card document for the same inputs. -/
theorem c2_invalid_card_type_counterexample :
    generate_html_for_image "FRONT" "png"
      ⟨some "banana", some "PDF/X-4", none, some false, some false, some false,
        some "cover", some "#ffffff"⟩
      (some ⟨some ⟨"BACK", "png"⟩, some ⟨"INSIDE", "png"⟩⟩) =
    generate_flat_card_html "FRONT" "png"
      ⟨some "banana", some "PDF/X-4", none, some false, some false, some false,
        some "cover", some "#ffffff"⟩
      (some "BACK") (some "png") := by
  rfl

/-- **C2** amended: the assembler rejects nothing; every `card_type`
other than `"folded"` — including invalid values — is silently treated as
a flat card, and a flat-card document is produced. -/
theorem c2_card_type_fallthrough (s : Settings) (fd ft : String)
    (ai : Option AdditionalImages) (h : getCardType s ≠ "folded") :
    generate_html_for_image fd ft s ai =
      generate_flat_card_html fd ft s
        ((ai.getD ⟨none, none⟩).back.map ImageRef.data)
        ((ai.getD ⟨none, none⟩).back.map ImageRef.type) := by
  simp [generate_html_for_image, h]

/-- Witness for the amended C2 at `card_type = "banana"`. -/
theorem c2_card_type_fallthrough_witness :
    getCardType ⟨some "banana", none, none, none, none, none, none, none⟩ ≠ "folded" ∧
    generate_html_for_image "F" "png"
      ⟨some "banana", none, none, none, none, none, none, none⟩ none =
      generate_flat_card_html "F" "png"
        ⟨some "banana", none, none, none, none, none, none, none⟩ none none :=
  ⟨by decide, c2_card_type_fallthrough _ "F" "png" none (by decide)⟩

/-- **C4**: folded-card geometry: spread trim is 9.5in x 6.75in (printed
as "9.5"/"6.75"); totals are 9.75in x 7.0in with bleed on and the trim
size with bleed off; the `@page` size declaration always carries the trim
size; and the `.spread-content` box is offset by `-bleed` on top and left
and sized `total x total` (all lengths in thousandths of an inch). -/
theorem c4_folded_geometry (s : Settings) (fd ft : String)
    (i_d i_t b_d b_t : Option String) :
    spreadWidthMilli = 9500 ∧ spreadHeightMilli = 6750 ∧
    pyFloatStr spreadWidthMilli = "9.5" ∧ pyFloatStr spreadHeightMilli = "6.75" ∧
    (getAddBleed s = true →
      totalSpreadWidthMilli s = 9750 ∧ totalSpreadHeightMilli s = 7000) ∧
    (getAddBleed s = false →
      totalSpreadWidthMilli s = 9500 ∧ totalSpreadHeightMilli s = 6750) ∧
    ContainsStr (generate_folded_card_html fd ft s i_d i_t b_d b_t)
      ("size: " ++ pyFloatStr spreadWidthMilli ++ "in " ++
        pyFloatStr spreadHeightMilli ++ "in;") ∧
    ContainsStr (generate_folded_card_html fd ft s i_d i_t b_d b_t)
      (".spread-content \x7b\n            position: absolute;\n            top: -" ++
        bleedStr s ++ "in;\n            left: -" ++ bleedStr s ++
        "in;\n            width: " ++ pyFloatStr (totalSpreadWidthMilli s) ++
        "in;\n            height: " ++ pyFloatStr (totalSpreadHeightMilli s) ++ "in;") := by
  refine ⟨by decide, by decide, by decide, by decide, ?_, ?_, ?_, ?_⟩
  · intro h
    simp [totalSpreadWidthMilli, totalSpreadHeightMilli, spreadWidthMilli,
      spreadHeightMilli, panelWidthMilli, panelHeightMilli, bleedMilli, h]
  · intro h
    simp [totalSpreadWidthMilli, totalSpreadHeightMilli, spreadWidthMilli,
      spreadHeightMilli, panelWidthMilli, panelHeightMilli, bleedMilli, h]
  · simp only [generate_folded_card_html, foldedHeadHtml]
    iterate 56 apply containsStr_appL
    exact contains_size_chunk _ _ _
  · simp only [generate_folded_card_html, foldedHeadHtml]
    iterate 31 apply containsStr_appL
    exact contains_spread_content_chunk _ _ _ _

/-- Witness for C4 with bleed on and off. -/
theorem c4_folded_geometry_witness :
    (totalSpreadWidthMilli ⟨none, none, none, some true, none, none, none, none⟩ = 9750 ∧
      totalSpreadHeightMilli ⟨none, none, none, some true, none, none, none, none⟩ = 7000) ∧
    (totalSpreadWidthMilli ⟨none, none, none, some false, none, none, none, none⟩ = 9500 ∧
      totalSpreadHeightMilli ⟨none, none, none, some false, none, none, none, none⟩ = 6750) :=
  ⟨(c4_folded_geometry ⟨none, none, none, some true, none, none, none, none⟩
      "D" "png" none none none none).2.2.2.2.1 (by decide),
   (c4_folded_geometry ⟨none, none, none, some false, none, none, none, none⟩
      "D" "png" none none none none).2.2.2.2.2.1 (by decide)⟩

/-- **C5**: with profile `PDF/X-1a`, both color flags set, and ICC bytes
`0x00 0x01`, the directive contains the profile declaration verbatim, the
keyword sequence `use-true-black use-cmyk-colors` in that order, and the
output-intent data URI with base64 payload `AAE=`. -/
theorem c5_color_directive_concrete :
    b64encode [0, 1] = "AAE=" ∧
    ContainsStr
      (get_prince_pdf_css ⟨none, some "PDF/X-1a", some (b64encode [0, 1]), none,
        some true, some true, none, none⟩)
      "prince-pdf-profile: \"PDF/X-1a\";" ∧
    ContainsStr
      (get_prince_pdf_css ⟨none, some "PDF/X-1a", some (b64encode [0, 1]), none,
        some true, some true, none, none⟩)
      "use-true-black use-cmyk-colors" ∧
    ContainsStr
      (get_prince_pdf_css ⟨none, some "PDF/X-1a", some (b64encode [0, 1]), none,
        some true, some true, none, none⟩)
      "prince-pdf-output-intent: url(\"data:application/vnd.iccprofile;base64,AAE=\");" := by
  refine ⟨by decide, ?_, ?_, ?_⟩
  · exact princeCss_line_decomp _ _ (by decide)
  · exact containsStr_trans _ "prince-pdf-color-options: use-true-black use-cmyk-colors;" _
      (princeCss_line_decomp _ _ (by decide))
      ⟨"prince-pdf-color-options: ", ";", by decide⟩
  · exact princeCss_line_decomp _ _ (by decide)

/-- **C6**: with an empty profile string, both color flags false, and no
ICC data, the builder returns the empty string — no block at all. -/
theorem c6_empty_directive (s : Settings) (hp : getPdfProfile s = "")
    (htb : getUseTrueBlack s = false) (hcm : getUseCmykColors s = false)
    (hicc : s.icc_base64 = none) :
    get_prince_pdf_css s = "" := by
  simp [get_prince_pdf_css, princePdfLines, colorOptions, hp, htb, hcm, hicc,
    show ("" : String).isEmpty = true from rfl]

/-- Witness for C6 at a concrete settings value. -/
theorem c6_empty_directive_witness :
    get_prince_pdf_css ⟨none, some "", none, none, some false, some false, none, none⟩ = "" :=
  c6_empty_directive _ (by decide) (by decide) (by decide) rfl

/-- **C9**: a settings mapping with no `use_true_black` key is treated as
true — the keyword is emitted — while the other boolean settings of the
builder and generators default to false when their key is missing. -/
theorem c9_use_true_black_default (s : Settings) (h : s.use_true_black = none) :
    getUseTrueBlack s = true ∧
    "use-true-black" ∈ colorOptions s ∧
    ContainsStr (get_prince_pdf_css s) "use-true-black" ∧
    (∀ s2 : Settings, s2.use_cmyk_colors = none → getUseCmykColors s2 = false) ∧
    (∀ s2 : Settings, s2.add_bleed = none → getAddBleed s2 = false) := by
  have h1 : getUseTrueBlack s = true := by simp [getUseTrueBlack, h]
  have h2 : "use-true-black" ∈ colorOptions s := by simp [colorOptions, h1]
  refine ⟨h1, h2, ?_, fun s2 hs2 => by simp [getUseCmykColors, hs2],
    fun s2 hs2 => by simp [getAddBleed, hs2]⟩
  have hne : colorOptions s ≠ [] := by
    intro hc
    rw [hc] at h2
    cases h2
  obtain ⟨a, b, hab⟩ := joinSep_decomp " " "use-true-black" (colorOptions s) h2
  refine containsStr_trans _
    ("prince-pdf-color-options: " ++ joinSep " " (colorOptions s) ++ ";") _
    (princeCss_line_decomp s _ (colorLine_mem s hne)) ?_
  exact ⟨"prince-pdf-color-options: " ++ a, b ++ ";", by
    rw [hab]
    simp [String.append_assoc]⟩

/-- Witness for C9 at the all-absent settings value. -/
theorem c9_use_true_black_default_witness :
    getUseTrueBlack ⟨none, none, none, none, none, none, none, none⟩ = true ∧
    "use-true-black" ∈ colorOptions ⟨none, none, none, none, none, none, none, none⟩ :=
  ⟨(c9_use_true_black_default ⟨none, none, none, none, none, none, none, none⟩ rfl).1,
   (c9_use_true_black_default ⟨none, none, none, none, none, none, none, none⟩ rfl).2.1⟩

/-- **C10**: for a flat card the assembled document does not depend on
the supplied inside image: runs differing only in the inside image entry
produce identical markup, because the flat generator never receives it. -/
theorem c10_flat_ignores_inside (s : Settings) (h : getCardType s = "flat")
    (fd ft : String) (back i1 i2 : Option ImageRef) :
    generate_html_for_image fd ft s (some ⟨back, i1⟩) =
    generate_html_for_image fd ft s (some ⟨back, i2⟩) := by
  simp [generate_html_for_image, h]

/-- Witness for C10 with two different inside images. -/
theorem c10_flat_ignores_inside_witness :
    generate_html_for_image "F" "png"
      ⟨some "flat", none, none, none, none, none, none, none⟩
      (some ⟨none, some ⟨"IN1", "png"⟩⟩) =
    generate_html_for_image "F" "png"
      ⟨some "flat", none, none, none, none, none, none, none⟩
      (some ⟨none, some ⟨"IN2", "jpeg"⟩⟩) :=
  c10_flat_ignores_inside _ (by decide) "F" "png" none
    (some ⟨"IN1", "png"⟩) (some ⟨"IN2", "jpeg"⟩)

/-- **C3**: for a folded card without an inside image, the inside spread
carries the InsideLeft/InsideRight fallback fragments and the fold-guide
indicator; with an inside image, both inside halves carry that same image
with `object-position` right (left half) and left (right half), and the
inside spread's indicator is the empty string. -/
theorem c3_inside_panels (s : Settings) (fd ft : String)
    (i_d i_t b_d b_t : Option String) :
    (¬(truthy i_d = true ∧ truthy i_t = true) →
      insideLeftContent i_d i_t = INSIDE_LEFT_CONTENT ∧
      insideRightContent i_d i_t = INSIDE_RIGHT_CONTENT ∧
      insideFoldIndicator i_d i_t = foldIndicatorDiv ∧
      ∃ a b c d : String,
        generate_folded_card_html fd ft s i_d i_t b_d b_t =
          a ++ INSIDE_LEFT_CONTENT ++ b ++ INSIDE_RIGHT_CONTENT ++ c ++
            foldIndicatorDiv ++ d) ∧
    (∀ dv tv : String, i_d = some dv → i_t = some tv → dv ≠ "" → tv ≠ "" →
      insideFoldIndicator i_d i_t = "" ∧
      ∃ a b c : String,
        generate_folded_card_html fd ft s i_d i_t b_d b_t =
          a ++ ("<img class=\"image\" src=\"data:image/" ++ tv ++ ";base64," ++ dv ++
            "\" alt=\"Inside Left\" style=\"object-position: right center;\">") ++ b ++
          ("<img class=\"image\" src=\"data:image/" ++ tv ++ ";base64," ++ dv ++
            "\" alt=\"Inside Right\" style=\"object-position: left center;\">") ++ c) := by
  constructor
  · intro h
    have hcond : (truthy i_d && truthy i_t) = false := by
      cases hd : truthy i_d <;> cases ht : truthy i_t <;> simp_all
    have hL : insideLeftContent i_d i_t = INSIDE_LEFT_CONTENT := by
      simp [insideLeftContent, hcond]
    have hR : insideRightContent i_d i_t = INSIDE_RIGHT_CONTENT := by
      simp [insideRightContent, hcond]
    have hF : insideFoldIndicator i_d i_t = foldIndicatorDiv := by
      simp [insideFoldIndicator, hcond, foldIndicatorDiv]
    refine ⟨hL, hR, hF,
      foldedHeadHtml s ++ foldedSpread1Comment ++ foldedSpread1Open ++
        foldedBackPanelContent b_d b_t ++ foldedFrontOpen ++
        "<img class=\"image\" src=\"data:image/" ++ ft ++ ";base64," ++ fd ++
        foldedFrontClose ++ foldedSpread1Close ++ foldIndicatorDiv ++
        foldedSpreadGap ++ foldedSpread2Comment ++ foldedSpread2Open,
      foldedInsideMid, foldedSpread2Close, foldedDocClose, ?_⟩
    simp only [generate_folded_card_html]
    simp [hL, hR, hF, String.append_assoc]
  · intro dv tv hd ht hdne htne
    subst hd
    subst ht
    have hcond : (truthy (some dv) && truthy (some tv)) = true := by
      have h1 : dv.isEmpty = false := by
        cases hh : dv.isEmpty
        · rfl
        · exact absurd ((String.isEmpty_iff dv).mp hh) hdne
      have h2 : tv.isEmpty = false := by
        cases hh : tv.isEmpty
        · rfl
        · exact absurd ((String.isEmpty_iff tv).mp hh) htne
      simp [truthy, h1, h2]
    have hF : insideFoldIndicator (some dv) (some tv) = "" := by
      simp [insideFoldIndicator, hcond]
    have hL : insideLeftContent (some dv) (some tv) =
        "<img class=\"image\" src=\"data:image/" ++ tv ++ ";base64," ++ dv ++
          "\" alt=\"Inside Left\" style=\"object-position: right center;\">" := by
      simp [insideLeftContent, hcond, String.append_assoc]
    have hR : insideRightContent (some dv) (some tv) =
        "<img class=\"image\" src=\"data:image/" ++ tv ++ ";base64," ++ dv ++
          "\" alt=\"Inside Right\" style=\"object-position: left center;\">" := by
      simp [insideRightContent, hcond, String.append_assoc]
    refine ⟨hF,
      foldedHeadHtml s ++ foldedSpread1Comment ++ foldedSpread1Open ++
        foldedBackPanelContent b_d b_t ++ foldedFrontOpen ++
        "<img class=\"image\" src=\"data:image/" ++ ft ++ ";base64," ++ fd ++
        foldedFrontClose ++ foldedSpread1Close ++ foldIndicatorDiv ++
        foldedSpreadGap ++ foldedSpread2Comment ++ foldedSpread2Open,
      foldedInsideMid, foldedSpread2Close ++ foldedDocClose, ?_⟩
    simp only [generate_folded_card_html]
    rw [hL, hR, hF]
    simp [String.append_assoc]

/-- Witness for C3: fallback case at no inside image, image case at a
concrete inside image. -/
theorem c3_inside_panels_witness :
    insideLeftContent none none = INSIDE_LEFT_CONTENT ∧
    insideFoldIndicator (some "IN") (some "png") = "" :=
  ⟨((c3_inside_panels ⟨none, none, none, none, none, none, none, none⟩
      "F" "png" none none none none).1 (by decide)).1,
   ((c3_inside_panels ⟨none, none, none, none, none, none, none, none⟩
      "F" "png" (some "IN") (some "png") none none).2
      "IN" "png" rfl rfl (by decide) (by decide)).1⟩

/-- **C7**: page/spread sequencing: the flat document carries the front
page before the back page; the folded document carries spread 1 with the
back panel left of the front image, then spread 2 with inside-left before
inside-right; both style sheets force a break after every page/spread
(`page-break-after: always`) and suppress it on the last
(`:last-child` ... `avoid`). -/
theorem c7_document_sequencing (s : Settings) (fd ft : String)
    (i_d i_t b_d b_t : Option String) :
    (∃ a b c d e : String,
      generate_flat_card_html fd ft s b_d b_t =
        a ++ flatPage1Comment ++ b ++ flatFrontClose ++ c ++ flatPage2Comment ++
          d ++ flatBackContent b_d b_t ++ e) ∧
    ContainsStr (generate_flat_card_html fd ft s b_d b_t)
      (".page \x7b\n            position: relative;\n            width: " ++
        pyFloatStr cardWidthMilli ++ "in;\n            height: " ++
        pyFloatStr cardHeightMilli ++
        "in;\n            page-break-after: always;\n            overflow: visible;\n        \x7d\n        \n        .page:last-child \x7b\n            page-break-after: avoid;\n        \x7d") ∧
    (∃ a b c d e f g : String,
      generate_folded_card_html fd ft s i_d i_t b_d b_t =
        a ++ foldedSpread1Comment ++ b ++ foldedBackPanelContent b_d b_t ++ c ++
          foldedFrontClose ++ d ++ foldedSpread2Comment ++ e ++
          insideLeftContent i_d i_t ++ f ++ insideRightContent i_d i_t ++ g) ∧
    ContainsStr (generate_folded_card_html fd ft s i_d i_t b_d b_t)
      (".spread \x7b\n            position: relative;\n            width: " ++
        pyFloatStr spreadWidthMilli ++ "in;\n            height: " ++
        pyFloatStr spreadHeightMilli ++
        "in;\n            page-break-after: always;\n            overflow: visible;\n        \x7d\n        \n        .spread:last-child \x7b\n            page-break-after: avoid;\n        \x7d") := by
  refine ⟨?_, ?_, ?_, ?_⟩
  · refine ⟨flatHeadHtml s, flatFrontOpen ++ ft ++ ";base64," ++ fd, flatPageGap,
      flatBackOpen, flatDocClose, ?_⟩
    simp only [generate_flat_card_html]
    simp [String.append_assoc]
  · simp only [generate_flat_card_html, flatHeadHtml]
    iterate 37 apply containsStr_appL
    exact contains_page_break_chunk _ _ _
  · refine ⟨foldedHeadHtml s, foldedSpread1Open,
      foldedFrontOpen ++ "<img class=\"image\" src=\"data:image/" ++ ft ++
        ";base64," ++ fd,
      foldedSpread1Close ++ foldIndicatorDiv ++ foldedSpreadGap, foldedSpread2Open,
      foldedInsideMid,
      foldedSpread2Close ++ insideFoldIndicator i_d i_t ++ foldedDocClose, ?_⟩
    simp only [generate_folded_card_html]
    simp [String.append_assoc]
  · simp only [generate_folded_card_html, foldedHeadHtml]
    iterate 41 apply containsStr_appL
    exact contains_spread_break_chunk _ _ _

/-- **C8**: the outside spread of every folded document carries the fold
indicator unconditionally, between the spread-1 comment and the spread-2
comment; only the inside spread's indicator is conditional on the inside
image. -/
theorem c8_outside_fold_indicator (s : Settings) (fd ft : String)
    (i_d i_t b_d b_t : Option String) :
    (∃ a b c d e : String,
      generate_folded_card_html fd ft s i_d i_t b_d b_t =
        a ++ foldedSpread1Comment ++ b ++ foldIndicatorDiv ++ c ++
          foldedSpread2Comment ++ d ++ insideFoldIndicator i_d i_t ++ e) ∧
    (truthy i_d = true ∧ truthy i_t = true → insideFoldIndicator i_d i_t = "") ∧
    (¬(truthy i_d = true ∧ truthy i_t = true) →
      insideFoldIndicator i_d i_t = foldIndicatorDiv) := by
  refine ⟨?_, ?_, ?_⟩
  · refine ⟨foldedHeadHtml s,
      foldedSpread1Open ++ foldedBackPanelContent b_d b_t ++ foldedFrontOpen ++
        "<img class=\"image\" src=\"data:image/" ++ ft ++ ";base64," ++ fd ++
        foldedFrontClose ++ foldedSpread1Close,
      foldedSpreadGap,
      foldedSpread2Open ++ insideLeftContent i_d i_t ++ foldedInsideMid ++
        insideRightContent i_d i_t ++ foldedSpread2Close,
      foldedDocClose, ?_⟩
    simp only [generate_folded_card_html]
    simp [String.append_assoc]
  · rintro ⟨h1, h2⟩
    simp [insideFoldIndicator, h1, h2]
  · intro h
    have hcond : (truthy i_d && truthy i_t) = false := by
      cases hd : truthy i_d <;> cases ht : truthy i_t <;> simp_all
    simp [insideFoldIndicator, hcond, foldIndicatorDiv]

/-- Witness for C8's conditional parts at concrete inside images. -/
theorem c8_outside_fold_indicator_witness :
    insideFoldIndicator (some "IN") (some "png") = "" ∧
    insideFoldIndicator none none = foldIndicatorDiv :=
  ⟨(c8_outside_fold_indicator ⟨none, none, none, none, none, none, none, none⟩
      "F" "png" (some "IN") (some "png") none none).2.1 (by decide),
   (c8_outside_fold_indicator ⟨none, none, none, none, none, none, none, none⟩
      "F" "png" none none none none).2.2 (by decide)⟩

end Imposition
